import Mathlib

/-!
Shallow embedding of the Glances Rich terminal interface
(glances/outputs/glances_rich.py) and of the CPU plugin
(glances/plugins/cpu/model.py), with theorems settling the
specification claims about the sampled-metric pipeline and the
layout/render engine.
-/

namespace Glances

/-! ### CPU plugin: cumulative-counter sampling (PluginModel.update_local)

The counter part of `update_local` is uniform over the fields of
`psutil.cpu_stats()` (ctx_switches, interrupts, soft_interrupts, syscalls),
so it is embedded per field.  The plugin state `cpu_stats_old` is the
previously stored raw psutil counter object; the Python code tests
`hasattr(self, 'cpu_stats_old')`, embedded here as an `Option`.
psutil counters are integers, so the source guard
`if getattr(cpu_stats, stat) is not None` is the identity and is not
re-modelled. -/

/-- One cumulative counter field of `PluginModel.update_local`:
given the previously stored raw counter (`none` before the first-ever
sample) and the current raw counter, return the value emitted into the
Snapshot and the new stored state (`self.cpu_stats_old = cpu_stats`,
executed on every sample). -/
def update_local_counter (cpu_stats_old : Option Int) (cpu_stat : Int) :
    Int × Option Int :=
  match cpu_stats_old with
  | none => (0, some cpu_stat)
  | some old => (cpu_stat - old, some cpu_stat)

/-- The numeric per-second value rendered by `PluginModel.msg_curse` for a
cumulative counter field: the source computes
`int(self.stats[field] // self.stats['time_since_update'])`,
Python floor division of an int by a float followed by `int`, which is
the mathematical floor of the exact quotient. -/
def msg_curse_rate (value : Int) (time_since_update : ℚ) : Int :=
  Int.floor ((value : ℚ) / time_since_update)

/-! ### CPU plugin: msg_curse header trend (PluginModel.msg_curse)

The header combines the user and system trends.  The source reads

  trend_user = self.get_trend('user')
  trend_system = self.get_trend('system')
  if trend_user is None or trend_user is None:
      trend_cpu = None
  else:
      trend_cpu = trend_user + trend_system

`get_trend` returns a number or `None` (unavailable), embedded as
`Option ℚ`.  The duplicated `trend_user is None` test is kept as in the
source.  In the `else` branch, when `trend_system` is `None`, the Python
addition `trend_user + trend_system` raises `TypeError`; a raise is
embedded as `Except.error ()`. -/

/-- Combined CPU trend computed by the `msg_curse` header.  `Except.ok`
is the value bound to `trend_cpu` (with `none` meaning unavailable);
`Except.error ()` is the `TypeError` raised by adding a number and
`None`. -/
def msg_curse_trend_cpu (trend_user trend_system : Option ℚ) :
    Except Unit (Option ℚ) :=
  if trend_user.isNone || trend_user.isNone then
    Except.ok none
  else
    match trend_user, trend_system with
    | some u, some s => Except.ok (some (u + s))
    | _, _ => Except.error ()

/-! ### Refresh scheduler (GlancesRich.update) -/

/-- Duration handling at the top of `GlancesRich.update`:

  if duration <= 0:
      logger.warning(...)
      duration = 0.1

Returns the duration actually used for the countdown and whether the
warning was emitted. -/
def update_duration (duration : ℚ) : ℚ × Bool :=
  if duration ≤ 0 then (1 / 10, true) else (duration, false)

/-- `isexitkey` for one keyboard state of `GlancesRich.update`: when
`self.kb.kbhit()` reports a pending key the source reads
`pressedkey = ord(self.kb.getch())`, otherwise `pressedkey = -1`; the
exit test is `pressedkey == ord('\x1b') or pressedkey == ord('q')`,
which is false for -1. -/
def is_exit_key : Option Char → Bool
  | some c => c == '\x1b' || c == 'q'
  | none => false

/-- The keyboard/countdown loop of `GlancesRich.update`, which returns
`isexitkey`.  The fuel `n` is the number of iterations the countdown
still allows (`while not countdown.finished() ...`); `evs` is the
sequence of keyboard states seen at each iteration, `none` when no key
is pending and `some c` when `getch` yields the character `c`.  On
`isexitkey` the loop condition fails and `True` is returned, otherwise
the loop redraws, sleeps and re-iterates. -/
def update_loop : Nat → List (Option Char) → Bool
  | 0, _ => false
  | n + 1, evs =>
    if is_exit_key (evs.headD none) then true else update_loop n evs.tail

/-! ### Layout engine: plugin content and measurement (GlancesRich)

`get_stats_display` returns `{msgdict: [...], display: bool}` where each
msgdict entry is a dict expected to carry the keys `msg` (a string) and
`optional` (a bool).  A malformed entry — one missing a key — makes the
corresponding Python subscript raise `KeyError`; a missing key is
embedded as `none`. -/

/-- One entry of a plugin msgdict.  `msg = none` and `optional = none`
model malformed entries whose key access raises. -/
structure MsgItem where
  msg : Option String
  optional : Option Bool
deriving DecidableEq, Repr

/-- The dict returned by a plugin `get_stats_display` call. -/
structure StatDisplay where
  msgdict : List MsgItem
  display : Bool
deriving DecidableEq, Repr

/-- True when every entry carries the `msg` key: exactly the condition
under which the Python comprehensions over `i['msg']` do not raise. -/
def msgs_ok (l : List MsgItem) : Bool :=
  l.all fun i => i.msg.isSome

/-- True when the `without_option` comprehension of `_get_width` does
not raise.  Python evaluates the conditional expression
`(... i['msg'] ... if not i['optional'] else "")` lazily: every entry
subscripts `i['optional']`, but `i['msg']` is subscripted only when
`optional` is falsy.  So an entry raises exactly when it lacks the
`optional` key, or has a falsy `optional` and lacks the `msg` key; an
entry with a truthy `optional` contributes the empty string without
ever touching `msg`. -/
def items_ok (l : List MsgItem) : Bool :=
  l.all fun i =>
    match i.optional with
    | none => false
    | some true => true
    | some false => i.msg.isSome

/-- The `msg` value of a well-formed entry. -/
def msg_of (i : MsgItem) : String :=
  i.msg.getD ""

/-- The `optional` value of a well-formed entry. -/
def opt_of (i : MsgItem) : Bool :=
  i.optional.getD false

/-- Python `str.split` with the single-character separator `\x0a`,
over the character list of the string: splits at every occurrence and
keeps empty pieces, so the result is never the empty list. -/
def split_lines : List Char → List (List Char)
  | [] => [[]]
  | c :: cs =>
    if c = '\n' then [] :: split_lines cs
    else
      match split_lines cs with
      | [] => [[c]]
      | l :: ls => (c :: l) :: ls

/-- Length of the longest line of a string: Python
`len(max(s.split('\x0a'), key=len))`.  `split` on a non-empty
separator never yields the empty list, so `max` never raises. -/
def max_line_len (s : String) : Nat :=
  ((split_lines s.data).map List.length).foldl max 0

/-- `GlancesRich._get_width`: the length of the longest line of the
concatenated messages (skipping `optional` entries when
`without_option` is set).  The source wraps the computation in
`try/except` and returns `0` when an entry access raises; the ascii
`replace` re-encoding maps every character to a single character, so it
preserves lengths and line breaks and is not re-modelled. -/
def get_width (stats_display : StatDisplay) (without_option : Bool) : Nat :=
  if without_option then
    if items_ok stats_display.msgdict then
      max_line_len (String.join (stats_display.msgdict.map fun i =>
        if opt_of i then "" else msg_of i))
    else 0
  else
    if msgs_ok stats_display.msgdict then
      max_line_len (String.join (stats_display.msgdict.map msg_of))
    else 0

/-- `GlancesRich._get_height`: the number of entries whose message is
the newline sentinel, plus one; `0` when an entry access raises inside
the `try` block. -/
def get_height (stats_display : StatDisplay) : Nat :=
  if msgs_ok stats_display.msgdict then
    (stats_display.msgdict.map msg_of).count "\n" + 1
  else 0

/-! ### Layout engine: per-plugin descriptor (GlancesRich._plugin_to_rich) -/

/-- The slice of the shared `glances_processes` registry touched by the
renderer: its `max_processes` attribute (`none` = unset). -/
structure ProcessesState where
  max_processes : Option Nat
deriving DecidableEq, Repr

/-- The descriptor dict built by `_plugin_to_rich`. -/
structure RichRet where
  title : String
  subtitle : String
  data : String
  width : Nat
  height : Nat
  display : Bool
deriving DecidableEq, Repr

/-- The init value of the `_plugin_to_rich` return dict. -/
def init_rich_ret : RichRet :=
  { title := "", subtitle := "", data := "", width := 0, height := 0,
    display := false }

/-- Python `str.capitalize`: first character upper-cased, the rest
lower-cased. -/
def py_capitalize (s : String) : String :=
  match s.data with
  | [] => ""
  | c :: cs => String.mk (c.toUpper :: cs.map Char.toLower)

/-- The list comprehension `[i['msg'] for i in stat_display['msgdict']]`
followed by `''.join(...)`: raises (`Except.error`) when an entry lacks
the `msg` key, otherwise the concatenation of the messages. -/
def join_msgs : List MsgItem → Except Unit String
  | [] => Except.ok ""
  | i :: rest =>
    match i.msg with
    | none => Except.error ()
    | some m =>
      match join_msgs rest with
      | Except.error e => Except.error e
      | Except.ok ms => Except.ok (m ++ ms)

/-- `GlancesRich._plugin_to_rich`.  `get_plugin` models
`stats.get_plugin(plugin)`: `none` when the registry has no such plugin
(the guard `if stats.get_plugin(plugin):` fails and the init dict is
returned), and otherwise the outcome of the plugin
`get_stats_display` call — `Except.error ()` when that call raises.
The `glances_processes.max_processes = 10` assignment for the
processlist plugin happens inside the guard, before the fetch; nothing
in `_plugin_to_rich` catches, so a raise propagates together with the
already-performed registry mutation. -/
def plugin_to_rich (get_plugin : Option (Except Unit StatDisplay))
    (plugin : String) (g : ProcessesState) :
    Except Unit RichRet × ProcessesState :=
  match get_plugin with
  | none => (Except.ok init_rich_ret, g)
  | some fetch =>
    let g1 := if plugin == "processlist"
      then { g with max_processes := some 10 } else g
    match fetch with
    | Except.error e => (Except.error e, g1)
    | Except.ok stat_display =>
      match join_msgs stat_display.msgdict with
      | Except.error e => (Except.error e, g1)
      | Except.ok data =>
        (Except.ok
          { title := py_capitalize plugin
            subtitle := ""
            data := data
            width := get_width stat_display false + 4
            height := get_height stat_display + 2
            display := stat_display.display }, g1)

/-- `GlancesRich.plugins_to_rich`: iterate the registered plugins in
order, building the name-to-descriptor dict.  No exception handling in
the loop: a raise in any `_plugin_to_rich` call propagates and aborts
the whole traversal (and with it the `update_layout` rebuild). -/
def plugins_to_rich (plugins : List (String × Option (Except Unit StatDisplay)))
    (g : ProcessesState) :
    Except Unit (List (String × RichRet)) × ProcessesState :=
  match plugins with
  | [] => (Except.ok [], g)
  | (name, gp) :: rest =>
    match plugin_to_rich gp name g with
    | (Except.error e, g1) => (Except.error e, g1)
    | (Except.ok r, g1) =>
      match plugins_to_rich rest g1 with
      | (Except.error e, g2) => (Except.error e, g2)
      | (Except.ok rs, g2) => (Except.ok ((name, r) :: rs), g2)

/-! ### Layout engine: zone composition (GlancesRich.update_layout) -/

/-- Plugin order of the top band (`_top` in the source). -/
def top_plugins : List String :=
  ["cpu", "percpu", "gpu", "mem", "memswap", "load", "quicklook"]

/-- Plugin order of the fixed-width middle-left column
(`_middle_left`). -/
def middle_left_plugins : List String :=
  ["network", "connections", "wifi", "ports", "diskio", "fs", "irq",
   "folders", "raid", "smart", "sensors"]

/-- Plugin order of the flexible middle-right column
(`_middle_right`). -/
def middle_right_plugins : List String :=
  ["docker", "processcount", "amps", "processlist", "alert"]

/-- `_middle_left_width` in the source. -/
def middle_left_width : Nat := 34

/-- The panel filter `update_layout` applies identically in its top,
middle-left and middle-right loops:
`if stats_display[p]['display'] and len(stats_display[p]['data']) > 0`.
Given the zone order and the `stats_display` dict (as a total map,
every registered plugin having an entry), returns the plugin names that
contribute a panel to that zone of the layout tree.  (The trailing
`middle_left_padding` layout and the bottom band are bare spacer
regions, not descriptor-derived panels.) -/
def zone_panels (zone : List String) (stats_display : String → RichRet) :
    List String :=
  zone.filter fun p =>
    (stats_display p).display && decide ((stats_display p).data.length > 0)

/-! ### CPU plugin: view decoration (PluginModel.update_views) -/

/-- Modelled from the spec: `GlancesPluginModel.get_alert` is defined
outside the sampled sources (glances/plugins/plugin/model.py); per the
spec decoration algorithm, the current value is compared against
ascending severity boundaries after being scaled by the given maximum
capacity (value out of `maximum` expressed as a percentage), the
boundaries (careful < warning < critical) coming from configuration. -/
def get_alert (value maximum careful warning critical : ℚ) : String :=
  let v := value * 100 / maximum
  if critical ≤ v then "CRITICAL"
  else if warning ≤ v then "WARNING"
  else if careful ≤ v then "CAREFUL"
  else "OK"

/-- The ctx_switches branch of `PluginModel.update_views`: when the
Snapshot carries a `ctx_switches` field, its decoration is
`self.get_alert(self.stats[key], maximum=100 * self.stats['cpucore'],
header=key)`; absent the field, no view entry is decorated. -/
def update_views_ctx_switches (ctx_switches : Option ℚ) (cpucore : ℚ)
    (careful warning critical : ℚ) : Option String :=
  match ctx_switches with
  | some v => some (get_alert v (100 * cpucore) careful warning critical)
  | none => none

/-! ### Concrete fixtures used in closed instantiations -/

/-- A small well-formed plugin display: one entry with message `x`. -/
def sd_ex : StatDisplay :=
  { msgdict := [{ msg := some "x", optional := some false }],
    display := true }

/-- A malformed plugin display: its entry lacks the `msg` and `optional`
keys, so subscripting it raises. -/
def sd_bad : StatDisplay :=
  { msgdict := [{ msg := none, optional := none }], display := true }

/-- A display exercising the lazy conditional of the `without_option`
width: a mandatory entry with message `abc` followed by an optional
entry lacking the `msg` key.  The without-option comprehension maps
the second entry to the empty string without subscripting its `msg`,
so nothing raises and the measured width is 3. -/
def sd_opt_ex : StatDisplay :=
  { msgdict := [{ msg := some "abc", optional := some false },
                { msg := none, optional := some true }],
    display := true }

/-- The descriptor `_plugin_to_rich` builds for the cpu plugin from
`sd_ex`: data `x`, width 1 + 4 border columns, height 1 + 2 border
rows. -/
def rich_cpu_ex : RichRet :=
  { title := "Cpu", subtitle := "", data := "x", width := 5, height := 3,
    display := true }

/-- A `stats_display` dict carrying one displayable panel (cpu) and the
init descriptor for every other plugin. -/
def stats_display_ex : String → RichRet :=
  fun p => if p = "cpu" then rich_cpu_ex else init_rich_ret

/-! ## Theorems -/

/-- C1 (amended): in `update_local`, the first-ever sample of a
cumulative counter field emits 0 regardless of the raw counter value
and stores the raw counter as previous state; every later sample emits
exactly `current_raw - previous_raw` (not clamped non-negative) and
stores the new raw counter. -/
theorem update_local_counter_spec (cpu_stat old : Int) :
    update_local_counter none cpu_stat = (0, some cpu_stat) ∧
    update_local_counter (some old) cpu_stat =
      (cpu_stat - old, some cpu_stat) :=
  ⟨rfl, rfl⟩

/-- C1 (counterexample): with previous raw counter 200 and current raw
counter 100 (a wraparound), `update_local` emits -100, not
`max 0 (100 - 200) = 0`: the delta is not clamped non-negative. -/
theorem update_local_counter_no_clamp :
    (update_local_counter (some 200) 100).1 = -100 ∧
    max 0 ((100 : Int) - 200) = 0 ∧
    (update_local_counter (some 200) 100).1 ≠ max 0 ((100 : Int) - 200) := by
  refine ⟨rfl, by decide, by decide⟩

/-- C2 (code evaluated at the failing input): in the `msg_curse` header,
when the user trend is available (here 1) but the system trend is
unavailable, the duplicated `trend_user is None` test sends control to
the `else` branch and `trend_user + trend_system` raises `TypeError`;
by contrast an unavailable user trend is handled and yields the
unavailable combined trend, and two available trends are summed. -/
theorem msg_curse_trend_cpu_raises :
    msg_curse_trend_cpu (some 1) none = Except.error () ∧
    msg_curse_trend_cpu none (some 1) = Except.ok none ∧
    msg_curse_trend_cpu (some 1) (some 2) = Except.ok (some 3) := by
  refine ⟨rfl, rfl, ?_⟩
  simp [msg_curse_trend_cpu]
  norm_num

/-- C5: the refresh scheduler substitutes the floor 1/10 and reports the
warning for every non-positive requested duration, and uses a positive
requested duration unchanged with no warning. -/
theorem update_duration_floor (duration : ℚ) :
    (duration ≤ 0 → update_duration duration = (1 / 10, true)) ∧
    (0 < duration → update_duration duration = (duration, false)) := by
  constructor
  · intro h
    unfold update_duration
    rw [if_pos h]
  · intro h
    unfold update_duration
    rw [if_neg (not_le.mpr h)]

/-- C5 (witness): duration -1/2 is floored to 1/10 with a warning;
duration 3 is used unchanged with no warning. -/
theorem update_duration_floor_witness :
    update_duration (-(1 / 2)) = (1 / 10, true) ∧
    update_duration 3 = (3, false) :=
  ⟨(update_duration_floor (-(1 / 2))).1 (by norm_num),
   (update_duration_floor 3).2 (by norm_num)⟩

/-- C6 (counterexample): for the scenario first raw 120 then raw 185
with `time_since_update` 2, the two samples emit 0 then 65 as claimed,
but the per-second value rendered by `msg_curse` is
`int(65 // 2.0) = 32`, not the exact quotient 65/2 = 32.5. -/
theorem msg_curse_rate_not_exact :
    update_local_counter none 120 = (0, some 120) ∧
    update_local_counter (some 120) 185 = (65, some 185) ∧
    msg_curse_rate 65 2 = 32 ∧
    ((msg_curse_rate 65 2 : ℚ) ≠ 65 / 2) := by
  have h32 : msg_curse_rate 65 2 = 32 := by
    unfold msg_curse_rate
    rw [Int.floor_eq_iff]
    constructor <;> norm_num
  refine ⟨rfl, rfl, h32, ?_⟩
  rw [h32]
  norm_num

/-- C6 (amended): first sample of raw 120 emits 0 and stores 120;
second sample of raw 185 emits 65; the rendered per-second value for
that field at `time_since_update` 2 is the floored quotient 32. -/
theorem scenario_counter_rate :
    update_local_counter none 120 = (0, some 120) ∧
    update_local_counter (some 120) 185 = (65, some 185) ∧
    msg_curse_rate 65 2 = 32 := by
  refine ⟨rfl, rfl, ?_⟩
  unfold msg_curse_rate
  rw [Int.floor_eq_iff]
  constructor <;> norm_num

/-- C7: whenever the Snapshot carries a `ctx_switches` value, its
`update_views` decoration is computed by `get_alert` against the scaled
maximum `100 * cpucore` taken from the same Snapshot; and the maximum
really depends on `cpucore` (the same value 80 decorates differently
for 1 core and for 4 cores), so it is not a fixed constant. -/
theorem update_views_ctx_scaled_max :
    (∀ v cpucore careful warning critical : ℚ,
      update_views_ctx_switches (some v) cpucore careful warning critical =
        some (get_alert v (100 * cpucore) careful warning critical)) ∧
    update_views_ctx_switches (some 80) 1 50 70 90 ≠
      update_views_ctx_switches (some 80) 4 50 70 90 := by
  constructor
  · intro v c cw w cr
    rfl
  · have h1 : update_views_ctx_switches (some 80) 1 50 70 90 =
        some "WARNING" := by
      show some (get_alert 80 (100 * 1) 50 70 90) = some "WARNING"
      unfold get_alert
      norm_num
    have h4 : update_views_ctx_switches (some 80) 4 50 70 90 =
        some "OK" := by
      show some (get_alert 80 (100 * 4) 50 70 90) = some "OK"
      unfold get_alert
      norm_num
    rw [h1, h4]
    simp

/-- C3 (amended): a descriptor-fetch raise in any registered plugin
propagates out of `plugins_to_rich` and aborts the whole traversal for
the cycle: the failing plugin is not excluded, no descriptor dict is
produced at all. -/
theorem plugins_to_rich_error_propagates
    (ps : List (String × Option (Except Unit StatDisplay)))
    (g : ProcessesState) (name : String)
    (h : (name, some (Except.error ())) ∈ ps) :
    (plugins_to_rich ps g).1 = Except.error () := by
  induction ps generalizing g with
  | nil => simp at h
  | cons hd tl ih =>
    obtain ⟨nm, gp⟩ := hd
    rcases List.mem_cons.mp h with h1 | h2
    · rw [Prod.mk.injEq] at h1
      obtain ⟨rfl, rfl⟩ := h1
      rfl
    · cases hpr : plugin_to_rich gp nm g with
      | mk r g1 =>
        cases r with
        | error e =>
          simp only [plugins_to_rich, hpr]
        | ok v =>
          have htl := ih g1 h2
          cases hrest : plugins_to_rich tl g1 with
          | mk rr g2 =>
            rw [hrest] at htl
            have hrr : rr = Except.error () := htl
            subst hrr
            simp only [plugins_to_rich, hpr, hrest]

/-- C3 (witness): with a healthy cpu plugin followed by a mem plugin
whose fetch raises, the traversal ends in the propagated exception. -/
theorem plugins_to_rich_error_propagates_witness :
    (plugins_to_rich [("cpu", some (Except.ok sd_ex)),
        ("mem", some (Except.error ()))] ⟨none⟩).1 = Except.error () :=
  plugins_to_rich_error_propagates _ _ "mem" (by simp)

/-- C3 (counterexample): the cpu plugin alone composes into its
descriptor, but adding a mem plugin whose fetch raises makes the whole
`plugins_to_rich` traversal raise instead of composing the remaining
cpu panel: the failing panel is not excluded for the cycle. -/
theorem plugins_to_rich_abort_example :
    (plugins_to_rich [("cpu", some (Except.ok sd_ex))] ⟨none⟩).1 =
      Except.ok [("cpu", rich_cpu_ex)] ∧
    (plugins_to_rich [("cpu", some (Except.ok sd_ex)),
        ("mem", some (Except.error ()))] ⟨none⟩).1 = Except.error () := by
  constructor
  · rfl
  · rfl

/-- C4: every plugin placed as a panel in the top, middle-left or
middle-right zone by the `update_layout` filters has `display = true`
and non-empty data: a descriptor with `display = false` or empty
content never contributes a panel. -/
theorem zone_panels_display_nonempty
    (stats_display : String → RichRet) (p : String)
    (h : p ∈ zone_panels top_plugins stats_display ∨
         p ∈ zone_panels middle_left_plugins stats_display ∨
         p ∈ zone_panels middle_right_plugins stats_display) :
    (stats_display p).display = true ∧ (stats_display p).data ≠ "" := by
  have hf : ((stats_display p).display &&
      decide ((stats_display p).data.length > 0)) = true := by
    rcases h with h | h | h <;> exact (List.mem_filter.mp h).2
  rw [Bool.and_eq_true, decide_eq_true_eq] at hf
  refine ⟨hf.1, ?_⟩
  intro hdata
  have := hf.2
  rw [hdata] at this
  simp at this

/-- C4 (witness): in a cycle where only the cpu descriptor is
displayable, the cpu panel placed in the top zone has `display = true`
and non-empty data. -/
theorem zone_panels_display_nonempty_witness :
    (stats_display_ex "cpu").display = true ∧
    (stats_display_ex "cpu").data ≠ "" :=
  zone_panels_display_nonempty stats_display_ex "cpu" (Or.inl (by decide))

/-- C8: plugin content measurement is total: on well-formed content
`_get_height` returns the number of newline-sentinel fragments plus
one, and on malformed content (an entry whose key subscript actually
raises) `_get_height` returns 0, as does `_get_width` in its
with-optional and without-optional modes, instead of propagating the
exception.  In the without-option mode an entry raises only when its
lazy conditional subscripts a missing key — a missing `optional`, or a
falsy `optional` with a missing `msg`; when no entry raises, the
computed width of the concatenated non-optional fragments is
returned. -/
theorem measurement_degrades_gracefully (sd : StatDisplay) :
    (msgs_ok sd.msgdict = true →
      get_height sd = (sd.msgdict.map msg_of).count "\n" + 1) ∧
    (msgs_ok sd.msgdict = false → get_height sd = 0) ∧
    (items_ok sd.msgdict = false → get_width sd true = 0) ∧
    (items_ok sd.msgdict = true →
      get_width sd true =
        max_line_len (String.join (sd.msgdict.map fun i =>
          if opt_of i then "" else msg_of i))) ∧
    (msgs_ok sd.msgdict = false → get_width sd false = 0) := by
  refine ⟨?_, ?_, ?_, ?_, ?_⟩ <;> intro h <;>
    simp [get_height, get_width, h]

/-- C8 (witness): the one-fragment well-formed display has height 1
before borders; the malformed display measures 0 in height and in both
width modes; the display whose optional entry lacks a message measures
width 3 in the without-option mode — the lazy conditional skips the
missing key instead of raising. -/
theorem measurement_degrades_gracefully_witness :
    get_height sd_ex = (sd_ex.msgdict.map msg_of).count "\n" + 1 ∧
    get_height sd_bad = 0 ∧
    get_width sd_bad true = 0 ∧
    get_width sd_bad false = 0 ∧
    get_width sd_opt_ex true = 3 :=
  ⟨(measurement_degrades_gracefully sd_ex).1 (by decide),
   (measurement_degrades_gracefully sd_bad).2.1 (by decide),
   (measurement_degrades_gracefully sd_bad).2.2.1 (by decide),
   (measurement_degrades_gracefully sd_bad).2.2.2.2 (by decide),
   ((measurement_degrades_gracefully sd_opt_ex).2.2.2.1
     (by decide)).trans (by decide)⟩

/-- C9: the refresh loop returns true exactly when some iteration the
countdown still allows decodes a pending cancel key — the escape
character or the quit character q — and returns false when the
countdown expires without one; any other decoded key never causes the
exit. -/
theorem update_loop_exit_iff (n : Nat) (evs : List (Option Char)) :
    update_loop n evs = true ↔
      ∃ i, i < n ∧ (evs.getD i none = some '\x1b' ∨
        evs.getD i none = some 'q') := by
  induction n generalizing evs with
  | zero => simp [update_loop]
  | succ n ih =>
    cases evs with
    | nil =>
      have hstep : update_loop (n + 1) ([] : List (Option Char)) =
          update_loop n [] := rfl
      rw [hstep, ih]
      simp [List.getD_nil]
    | cons e es =>
      have hstep : update_loop (n + 1) (e :: es) =
          if is_exit_key e then true else update_loop n es := rfl
      rw [hstep]
      by_cases he : is_exit_key e = true
      · rw [if_pos he]
        refine iff_of_true rfl ⟨0, Nat.succ_pos n, ?_⟩
        cases e with
        | none => simp [is_exit_key] at he
        | some c =>
          simp only [is_exit_key, Bool.or_eq_true, beq_iff_eq] at he
          rcases he with h | h <;> simp [List.getD_cons_zero, h]
      · rw [if_neg he, ih]
        constructor
        · rintro ⟨i, hi, h⟩
          exact ⟨i + 1, Nat.succ_lt_succ hi,
            by simpa [List.getD_cons_succ] using h⟩
        · rintro ⟨i, hi, h⟩
          cases i with
          | zero =>
            rw [List.getD_cons_zero] at h
            exfalso
            apply he
            rcases h with h | h <;> rw [h] <;> rfl
          | succ j =>
            rw [List.getD_cons_succ] at h
            exact ⟨j, Nat.lt_of_succ_lt_succ hi, h⟩

/-- C10 (amended): `_plugin_to_rich` leaves the shared process registry
unchanged for every plugin other than processlist and whenever the
registry has no such plugin; but for the processlist plugin, building
the descriptor sets the shared registry knob `max_processes` to 10 as
a side effect of the fetch. -/
theorem plugin_to_rich_registry_effect
    (gp : Option (Except Unit StatDisplay)) (plugin : String)
    (g : ProcessesState) :
    (plugin ≠ "processlist" → (plugin_to_rich gp plugin g).2 = g) ∧
    (gp = none → (plugin_to_rich gp plugin g).2 = g) ∧
    (∀ fetch, gp = some fetch → plugin = "processlist" →
      (plugin_to_rich gp plugin g).2 = ⟨some 10⟩) := by
  refine ⟨?_, ?_, ?_⟩
  · intro h
    cases gp with
    | none => rfl
    | some fetch =>
      have hb : (plugin == "processlist") = false := by
        simp [h]
      cases fetch with
      | error e => simp [plugin_to_rich, hb]
      | ok sd =>
        cases hj : join_msgs sd.msgdict with
        | error e => simp [plugin_to_rich, hb, hj]
        | ok s => simp [plugin_to_rich, hb, hj]
  · intro h
    subst h
    rfl
  · intro fetch hgp hpl
    subst hgp
    subst hpl
    cases fetch with
    | error e => rfl
    | ok sd =>
      cases hj : join_msgs sd.msgdict with
      | error e => simp [plugin_to_rich, hj]
      | ok s => simp [plugin_to_rich, hj]

/-- C10 (witness): a cpu fetch leaves the registry knob unset, a
missing plugin leaves it at 5, and a processlist fetch sets it to
10. -/
theorem plugin_to_rich_registry_effect_witness :
    (plugin_to_rich (some (Except.ok sd_ex)) "cpu" ⟨none⟩).2 = ⟨none⟩ ∧
    (plugin_to_rich none "processlist" ⟨some 5⟩).2 = ⟨some 5⟩ ∧
    (plugin_to_rich (some (Except.ok sd_ex)) "processlist" ⟨none⟩).2 =
      ⟨some 10⟩ :=
  ⟨(plugin_to_rich_registry_effect _ _ _).1 (by decide),
   (plugin_to_rich_registry_effect _ _ _).2.1 rfl,
   (plugin_to_rich_registry_effect _ _ _).2.2 _ rfl rfl⟩

/-- C10 (counterexample): building the processlist descriptor mutates
the shared process registry: starting from an unset `max_processes`,
`_plugin_to_rich` returns with the knob set to 10, a different registry
state. -/
theorem plugin_to_rich_mutates_registry :
    (plugin_to_rich (some (Except.ok sd_ex)) "processlist" ⟨none⟩).2 =
      ⟨some 10⟩ ∧
    (⟨some 10⟩ : ProcessesState) ≠ (⟨none⟩ : ProcessesState) := by
  constructor
  · rfl
  · decide

end Glances
